import Mathlib

/-!
Verification of the make-up ("remedial") session scheduling and attendance
core of the campus attendance system (`lpu_cms.makeup`).

Shallow embedding conventions:
  * calendar dates are absolute day numbers (`Int`), with the convention that
    a day number `d` has weekday index `d % 7` where `0` is Monday and `6` is
    Sunday (matching Python's `date.weekday()`); since "today" is universally
    quantified, every real calendar alignment is covered;
  * instants (`timezone.now()`, activation/expiry timestamps) are `Int`
    values measured in minutes, so `timedelta(minutes=m)` is `+ m`;
  * the database is an explicit list of rows; Django querysets become list
    `filter`/`find?` operations;
  * randomness (`random.choices`) is an explicit `picks` parameter;
  * a raised-and-caught exception is an explicit `Except`/`Option` parameter
    marking where the failure occurred.
-/

namespace LpuCms

/-- A clock time (`datetime.time`): hour and minute. -/
structure Time where
  hour : Nat
  minute : Nat
deriving DecidableEq, Repr

/-- Python `date.weekday()`: 0 = Monday … 6 = Sunday, for an absolute
day number. -/
def weekday (d : Int) : Int := d % 7

/-- Model of `makeup.models.MakeUpSession` — one row, with foreign keys flattened to
ids and timestamps in minutes. -/
structure MakeUpSession where
  id : Nat
  facultyId : Nat
  courseId : Nat
  date : Int
  start_time : Time
  end_time : Time
  venue : String
  reason : String
  notes : String
  remedial_code : String
  code_active : Bool
  code_activated_at : Option Int
  code_expires_at : Option Int
  status : String
  ai_score : Int
deriving DecidableEq, Repr

/-- Model of `makeup.models.MakeUpAttendance` — one row. -/
structure MakeUpAttendance where
  sessionId : Nat
  studentId : Nat
  status : String
  code_used : String
  ip_address : Option String
deriving DecidableEq, Repr

/-- Model of `makeup.models.SchedulingSuggestion` — one row. -/
structure SchedulingSuggestion where
  sessionId : Nat
  suggested_date : Int
  suggested_time : Time
  score : Int
  reason : String
deriving DecidableEq, Repr

/-- A student together with the ids of the courses they are enrolled in
(`student.courses`). -/
structure Student where
  id : Nat
  courseIds : List Nat
deriving DecidableEq, Repr

/-- The alphabet of `generate_remedial_code`:
`string.ascii_uppercase + string.digits` (36 symbols). -/
def CODE_ALPHABET : List Char :=
  ("ABCDEFGHIJKLMNOPQRSTUVWXYZ" ++ "0123456789").toList

/-- Model of `makeup.models.generate_remedial_code`:
`''.join(random.choices(string.ascii_uppercase + string.digits, k=6))`.
The six random draws are the explicit `picks` argument; each pick indexes
the 36-character alphabet (`CODE_ALPHABET.length = 36`, so `getD` never
falls back to its default). -/
def generate_remedial_code (picks : Fin 6 → Fin 36) : String :=
  String.mk ((List.ofFn picks).map (fun i => CODE_ALPHABET.getD i.val 'A'))

/-- Model of `MakeUpSession.is_code_valid`: false when the active flag is off;
otherwise false when an expiry timestamp is set and `now` is strictly past
it; otherwise true. -/
def is_code_valid (now : Int) (s : MakeUpSession) : Bool :=
  if !s.code_active then false
  else
    match s.code_expires_at with
    | some e => if e < now then false else true
    | none => true

/-- Model of `MakeUpSession.activate_code(duration_minutes)`: sets the active flag,
stamps activation at `now`, expiry at `now + duration_minutes`, and forces
the status to `ONGOING`. -/
def activate_code (now duration_minutes : Int) (s : MakeUpSession) : MakeUpSession :=
  { s with code_active := true,
           code_activated_at := some now,
           code_expires_at := some (now + duration_minutes),
           status := "ONGOING" }

/-- Model of `makeup.views.deactivate_code` (POST branch): clears the active flag and
forces the status to `COMPLETED`. -/
def deactivate_code (s : MakeUpSession) : MakeUpSession :=
  { s with code_active := false, status := "COMPLETED" }

/-- Model of `MakeUpSession.regenerate_code`: replaces the code with a freshly
generated one; nothing else is touched. -/
def regenerate_code (picks : Fin 6 → Fin 36) (s : MakeUpSession) : MakeUpSession :=
  { s with remedial_code := generate_remedial_code picks }

-- ─────────────────────────────────────────
-- ai_scheduler.py
-- ─────────────────────────────────────────

def WEIGHT_GAP_FROM_LAST : Int := 30
def WEIGHT_MORNING_PREF : Int := 20
def WEIGHT_NO_CONFLICT : Int := 40
def WEIGHT_DAY_BALANCE : Int := 10

def PREFERRED_TIMES : List Time :=
  [⟨8, 0⟩, ⟨9, 0⟩, ⟨10, 0⟩, ⟨11, 0⟩, ⟨14, 0⟩]

/-- One scored candidate slot (the dict appended to `candidates`). -/
structure Candidate where
  date : Int
  time : Time
  score : Int
  reason : String
deriving DecidableEq, Repr

/-- Gap-from-last term of the scorer: score contribution and reason parts. -/
def gap_score (gap : Int) : Int × List String :=
  if 2 ≤ gap ∧ gap ≤ 4 then
    (WEIGHT_GAP_FROM_LAST, ["good gap of " ++ toString gap ++ " days from last session"])
  else if 5 ≤ gap then
    (WEIGHT_GAP_FROM_LAST / 2, ["adequate gap of " ++ toString gap ++ " days"])
  else
    (5, ["close to last session"])

/-- Time-of-day term of the scorer. -/
def time_score (t : Time) : Int × List String :=
  if t.hour ≤ 11 then
    (WEIGHT_MORNING_PREF, ["morning slot — better learning retention"])
  else if t.hour ≤ 14 then
    (WEIGHT_MORNING_PREF / 2, ["early afternoon slot"])
  else
    (5, ["late afternoon slot"])

/-- Conflict term of the scorer (`if t not in booked_slots[candidate_date]`). -/
def conflict_score (booked : List Time) (t : Time) : Int × List String :=
  if t ∉ booked then
    (WEIGHT_NO_CONFLICT, ["faculty is free at this time"])
  else
    (-20, ["⚠ faculty has another session at this time"])

/-- Day-load term of the scorer (note: load 1 appends no reason part). -/
def load_score (weekdayLoad : Nat) : Int × List String :=
  if weekdayLoad = 0 then
    (WEIGHT_DAY_BALANCE, ["no other sessions on this day"])
  else if weekdayLoad = 1 then
    (WEIGHT_DAY_BALANCE / 2, [])
  else
    (0, [toString weekdayLoad ++ " sessions already on this day"])

/-- The raw (pre-cap) sum of the four scoring terms for one slot. -/
def rawScore (lastDate : Int) (booked : List Time) (weekdayLoad : Nat)
    (d : Int) (t : Time) : Int :=
  (gap_score (d - lastDate)).1 + (time_score t).1 +
    (conflict_score booked t).1 + (load_score weekdayLoad).1

/-- One candidate dict: score is the raw sum capped one-sidedly at 100
(`min(score, 100)`), reason is the parts joined by `' · '`. -/
def scoreCandidate (lastDate : Int) (booked : List Time) (weekdayLoad : Nat)
    (d : Int) (t : Time) : Candidate :=
  { date := d, time := t,
    score := min (rawScore lastDate booked weekdayLoad d t) 100,
    reason := String.intercalate " · "
      ((gap_score (d - lastDate)).2 ++ (time_score t).2 ++
        (conflict_score booked t).2 ++ (load_score weekdayLoad).2) }

/-- The `existing` queryset: other sessions of the same faculty dated within
`[today, today + 14]` with status SCHEDULED or ONGOING, the session being
scheduled excluded by primary key. -/
def existing_sessions (db : List MakeUpSession) (session : MakeUpSession)
    (today : Int) : List MakeUpSession :=
  db.filter (fun s =>
    s.facultyId == session.facultyId &&
    decide (today ≤ s.date) && decide (s.date ≤ today + 14) &&
    (s.status == "SCHEDULED" || s.status == "ONGOING") &&
    s.id != session.id)

/-- Model of `booked_slots[d]`: start times of the existing sessions dated `d`. -/
def booked_slots (existing : List MakeUpSession) (d : Int) : List Time :=
  (existing.filter (fun s => s.date == d)).map (fun s => s.start_time)

/-- Model of `day_load[w]`: how many existing sessions fall on weekday `w`. -/
def day_load (existing : List MakeUpSession) (w : Int) : Nat :=
  (existing.filter (fun s => weekday s.date == w)).length

/-- Model of `last_date`: date of the most recent COMPLETED session of the same
course (`order_by('-date').first()`), defaulting to today. -/
def last_session_date (db : List MakeUpSession) (session : MakeUpSession)
    (today : Int) : Int :=
  match (db.filter (fun s =>
      s.courseId == session.courseId && s.status == "COMPLETED")).map
      (fun s => s.date) with
  | [] => today
  | d :: ds => ds.foldl max d

/-- Offsets `range(1, 15)` as integers. -/
def day_offsets : List Int := (List.range 14).map (fun n => (n : Int) + 1)

/-- The full candidate list built by `get_scheduling_suggestions` before
sorting: days 1–14 ahead, Sundays skipped, every preferred time scored. -/
def generate_candidates (db : List MakeUpSession) (session : MakeUpSession)
    (today : Int) : List Candidate :=
  let existing := existing_sessions db session today
  let lastDate := last_session_date db session today
  day_offsets.flatMap (fun off =>
    let d := today + off
    if weekday d = 6 then []
    else PREFERRED_TIMES.map (fun t =>
      scoreCandidate lastDate (booked_slots existing d)
        (day_load existing (weekday d)) d t))

/-- Stable descending insertion: walk past strictly greater scores, so an
element inserted later (i.e. earlier in the original list) lands before
equal scores — the behavior of Python's stable `list.sort(reverse=True)`. -/
def insertDesc (c : Candidate) : List Candidate → List Candidate
  | [] => [c]
  | x :: xs => if c.score < x.score then x :: insertDesc c xs else c :: x :: xs

/-- Stable sort by descending score (`candidates.sort(key=score, reverse=True)`). -/
def sortDesc : List Candidate → List Candidate
  | [] => []
  | x :: xs => insertDesc x (sortDesc xs)

/-- Model of `ai_scheduler.get_scheduling_suggestions`: sort all candidates by
descending score (stable) and return the first `num_suggestions`
(`3` at the call site in `schedule_session`). -/
def get_scheduling_suggestions (db : List MakeUpSession)
    (session : MakeUpSession) (today : Int) (num_suggestions : Nat) :
    List Candidate :=
  (sortDesc (generate_candidates db session today)).take num_suggestions

-- ─────────────────────────────────────────
-- views.py
-- ─────────────────────────────────────────

/-- Python `str.strip()`: drop whitespace from both ends (modelled over the
character list so that it evaluates by kernel reduction). -/
def pyStrip (s : String) : String :=
  String.mk
    (((s.toList.dropWhile Char.isWhitespace).reverse.dropWhile
      Char.isWhitespace).reverse)

/-- Python `str.upper()` (ASCII-sufficient for remedial codes). -/
def pyUpper (s : String) : String :=
  String.mk (s.toList.map Char.toUpper)

/-- The outcome of `makeup.views.mark_attendance`, one constructor per
user-facing message. -/
inductive MarkResult where
  | success | malformed | invalidCode | notActive | expired
  | notEnrolled | alreadyMarked
deriving DecidableEq, Repr

/-- Model of `makeup.views.mark_attendance` (POST branch): normalize the submitted
code (`strip().upper()`), then validate in order — length, lookup, validity
(not-active vs expired), enrollment, duplicate — and on success insert a
single PRESENT row snapshotting the submitted code and the origin address.
Sessions are passed through untouched (the view never saves a session). -/
def mark_attendance (sessions : List MakeUpSession)
    (atts : List MakeUpAttendance) (student : Student) (rawCode : String)
    (now : Int) (ip : Option String) :
    MarkResult × List MakeUpSession × List MakeUpAttendance :=
  let code := pyUpper (pyStrip rawCode)
  if code.isEmpty || code.length != 6 then
    (.malformed, sessions, atts)
  else
    match sessions.find? (fun s => s.remedial_code == code) with
    | none => (.invalidCode, sessions, atts)
    | some s =>
      if !is_code_valid now s then
        if !s.code_active then (.notActive, sessions, atts)
        else (.expired, sessions, atts)
      else if !(student.courseIds.contains s.courseId) then
        (.notEnrolled, sessions, atts)
      else if atts.any (fun a => a.sessionId == s.id && a.studentId == student.id) then
        (.alreadyMarked, sessions, atts)
      else
        (.success, sessions,
          atts ++ [{ sessionId := s.id, studentId := student.id,
                     status := "PRESENT", code_used := code, ip_address := ip }])

/-- The persistent rows touched by `schedule_session`. -/
structure AppState where
  sessions : List MakeUpSession
  suggestions : List SchedulingSuggestion
deriving DecidableEq, Repr

/-- One persisted `SchedulingSuggestion` row for a candidate. -/
def toSuggestionRow (sessionId : Nat) (c : Candidate) : SchedulingSuggestion :=
  { sessionId := sessionId, suggested_date := c.date,
    suggested_time := c.time, score := c.score, reason := c.reason }

/-- Model of `makeup.views.schedule_session` (POST success path): the session row is
created first; then, inside `try … except Exception: pass`, suggestions are
computed and persisted one row at a time.  `computed` is the outcome of the
`get_scheduling_suggestions` call (`.error` = it raised), and
`insertFailAt = some k` means the `SchedulingSuggestion.objects.create` for
index `k` raised, so only the first `k` rows were persisted (each `create`
commits on its own — there is no wrapping transaction).  Either way the
exception is swallowed and the view returns the redirect to the new
session's detail page (second component). -/
def schedule_session (st : AppState) (newSession : MakeUpSession)
    (computed : Except Unit (List Candidate)) (insertFailAt : Option Nat) :
    AppState × Nat :=
  let afterCreate : AppState :=
    { st with sessions := st.sessions ++ [newSession] }
  let newRows : List SchedulingSuggestion :=
    match computed with
    | .error _ => []
    | .ok cs =>
      match insertFailAt with
      | none => cs.map (toSuggestionRow newSession.id)
      | some k => (cs.take k).map (toSuggestionRow newSession.id)
  ({ afterCreate with suggestions := afterCreate.suggestions ++ newRows },
   newSession.id)

/-- One application-level operation on a session row: code activation,
deactivation, code regeneration, or an attendance submission (which never
mutates the session). -/
inductive SessionOp : MakeUpSession → MakeUpSession → Prop where
  | activate (now dur : Int) (s : MakeUpSession) :
      SessionOp s (activate_code now dur s)
  | deactivate (s : MakeUpSession) : SessionOp s (deactivate_code s)
  | regen (picks : Fin 6 → Fin 36) (s : MakeUpSession) :
      SessionOp s (regenerate_code picks s)
  | mark (s : MakeUpSession) : SessionOp s s

-- ─────────────────────────────────────────
-- Concrete scenario rows (shared across scenarios)
-- ─────────────────────────────────────────

/-- A freshly created session row (model defaults: inactive code, no
timestamps, status SCHEDULED), parametrized by its date. -/
def baseSession (d : Int) : MakeUpSession :=
  { id := 1, facultyId := 1, courseId := 1, date := d,
    start_time := ⟨8, 0⟩, end_time := ⟨9, 0⟩, venue := "Block 32 Room 101",
    reason := "OTHER", notes := "", remedial_code := "ABC123",
    code_active := false, code_activated_at := none,
    code_expires_at := none, status := "SCHEDULED", ai_score := 0 }

/-- Scenario database for the spec's §8 scoring scenario: the session being
scheduled plus a COMPLETED session of the same course dated 3 days ago. -/
def gapScenarioDb (today : Int) : List MakeUpSession :=
  [baseSession today,
   { baseSession (today - 3) with id := 2, status := "COMPLETED" }]

/-- Scenario database for a badly placed slot: two SCHEDULED sessions of the
same faculty on day `today + 2` (one at 14:00) and a COMPLETED session of
the same course dated `today + 14`. -/
def conflictScenarioDb (today : Int) : List MakeUpSession :=
  [baseSession today,
   { baseSession (today + 2) with id := 2, start_time := ⟨14, 0⟩ },
   { baseSession (today + 2) with id := 3, start_time := ⟨9, 0⟩ },
   { baseSession (today + 14) with id := 4, status := "COMPLETED" }]

/-- Two throwaway candidates used in the suggestion-persistence scenario. -/
def candA : Candidate := { date := 2, time := ⟨8, 0⟩, score := 85, reason := "rA" }

def candB : Candidate := { date := 3, time := ⟨9, 0⟩, score := 80, reason := "rB" }

-- ─────────────────────────────────────────
-- Theorems
-- ─────────────────────────────────────────

/-- Claim C5 (confirmed): `is_code_valid` returns true iff the active flag
is set and every set expiry timestamp is at or after `now`; in particular a
code checked exactly at its expiry instant is still valid.  Validity is a
pure function of the stored row and `now` — there is no background sweep to
model. -/
theorem claim5_theorem :
    (∀ (s : MakeUpSession) (now : Int),
        is_code_valid now s = true ↔
          s.code_active = true ∧ ∀ e, s.code_expires_at = some e → now ≤ e) ∧
    (∀ (s : MakeUpSession) (e : Int), s.code_active = true →
        s.code_expires_at = some e → is_code_valid e s = true) := by
  constructor
  · intro s now
    unfold is_code_valid
    cases hc : s.code_active <;> cases he : s.code_expires_at <;>
      simp [hc, he]
  · intro s e hc he
    unfold is_code_valid
    simp [hc, he]

/-- Witness for C5: an activated code is valid exactly at its expiry
instant. -/
theorem claim5_witness :
    is_code_valid 30 (activate_code 0 30 (baseSession 0)) = true :=
  claim5_theorem.2 (activate_code 0 30 (baseSession 0)) 30 (by decide)
    (by decide)

/-- Claim C9 (confirmed): regenerating a session's code replaces only the
`remedial_code` field with a freshly generated 6-character code; the active
flag, activation/expiry timestamps, status, and every other field are left
unchanged, whatever the current state of the code. -/
theorem claim9_theorem :
    ∀ (s : MakeUpSession) (picks : Fin 6 → Fin 36),
      (regenerate_code picks s).remedial_code = generate_remedial_code picks ∧
      (generate_remedial_code picks).length = 6 ∧
      (regenerate_code picks s).code_active = s.code_active ∧
      (regenerate_code picks s).code_activated_at = s.code_activated_at ∧
      (regenerate_code picks s).code_expires_at = s.code_expires_at ∧
      (regenerate_code picks s).status = s.status ∧
      (regenerate_code picks s).id = s.id ∧
      (regenerate_code picks s).facultyId = s.facultyId ∧
      (regenerate_code picks s).courseId = s.courseId ∧
      (regenerate_code picks s).date = s.date ∧
      (regenerate_code picks s).start_time = s.start_time ∧
      (regenerate_code picks s).end_time = s.end_time ∧
      (regenerate_code picks s).venue = s.venue ∧
      (regenerate_code picks s).reason = s.reason ∧
      (regenerate_code picks s).notes = s.notes ∧
      (regenerate_code picks s).ai_score = s.ai_score := by
  intro s picks
  refine ⟨rfl, ?_, rfl, rfl, rfl, rfl, rfl, rfl, rfl, rfl, rfl, rfl, rfl,
    rfl, rfl, rfl⟩
  simp [generate_remedial_code, String.length]

/-- Claim C6 counterexample: `activate_code` carries no status guard, so
activating after deactivation moves a session out of the terminal
`COMPLETED` state back to `ONGOING` — the status machine is not monotonic
forward. -/
theorem claim6_counterexample :
    (deactivate_code (activate_code 0 30 (baseSession 0))).status =
      "COMPLETED" ∧
    (activate_code 100 30
        (deactivate_code (activate_code 0 30 (baseSession 0)))).status =
      "ONGOING" ∧
    "ONGOING" ≠ "COMPLETED" :=
  ⟨rfl, rfl, by decide⟩

/-- Claim C6 (corrected): deactivation, regeneration, and attendance
submission never move a status backward (regeneration and attendance leave
it unchanged, deactivation forces `COMPLETED`), but activation always
forces `ONGOING` — even from `COMPLETED` — so `COMPLETED` is not terminal.
For every state reachable from a fresh session, `code_active = true`
implies both activation timestamps are non-null, and the status is one of
SCHEDULED / ONGOING / COMPLETED. -/
theorem claim6_amended :
    (∀ (s0 s : MakeUpSession), s0.code_active = false →
        s0.status = "SCHEDULED" → Relation.ReflTransGen SessionOp s0 s →
          (s.code_active = true →
            s.code_activated_at ≠ none ∧ s.code_expires_at ≠ none) ∧
          (s.status = "SCHEDULED" ∨ s.status = "ONGOING" ∨
            s.status = "COMPLETED")) ∧
    (∀ (s : MakeUpSession) (picks : Fin 6 → Fin 36),
        (regenerate_code picks s).status = s.status) ∧
    (∀ s : MakeUpSession, (deactivate_code s).status = "COMPLETED") ∧
    (∀ (s : MakeUpSession) (now dur : Int),
        (activate_code now dur s).status = "ONGOING") := by
  refine ⟨?_, fun s picks => rfl, fun s => rfl, fun s now dur => rfl⟩
  intro s0 s h0a h0s h
  induction h with
  | refl => exact ⟨fun hc => absurd hc (by simp [h0a]), Or.inl h0s⟩
  | tail _ step ih =>
    cases step with
    | activate now dur t =>
      exact ⟨fun _ => ⟨by simp [activate_code], by simp [activate_code]⟩,
        Or.inr (Or.inl rfl)⟩
    | deactivate t =>
      refine ⟨fun hc => ?_, Or.inr (Or.inr rfl)⟩
      simp [deactivate_code] at hc
    | regen picks t =>
      exact ⟨fun hc => ih.1 (by simpa [regenerate_code] using hc),
        by simpa [regenerate_code] using ih.2⟩
    | mark t => exact ih

/-- Witness for the amended C6 at a concrete one-step trace. -/
theorem claim6_witness :
    ((activate_code 0 30 (baseSession 0)).code_active = true →
      (activate_code 0 30 (baseSession 0)).code_activated_at ≠ none ∧
      (activate_code 0 30 (baseSession 0)).code_expires_at ≠ none) ∧
    ((activate_code 0 30 (baseSession 0)).status = "SCHEDULED" ∨
      (activate_code 0 30 (baseSession 0)).status = "ONGOING" ∨
      (activate_code 0 30 (baseSession 0)).status = "COMPLETED") :=
  claim6_amended.1 (baseSession 0) (activate_code 0 30 (baseSession 0))
    (by decide) (by decide)
    (Relation.ReflTransGen.single (SessionOp.activate 0 30 (baseSession 0)))

/-- Claim C7 counterexample: the suggestion rows are persisted one at a
time inside the `try` block with no wrapping transaction, so an exception
raised by the second insert leaves the first suggestion durably persisted —
the session exists and is reported, but the caller-visible effect of the
failure is one suggestion, not zero. -/
theorem claim7_counterexample :
    (schedule_session ⟨[], []⟩ (baseSession 0)
        (Except.ok [candA, candB]) (some 1)).1.sessions = [baseSession 0] ∧
    (schedule_session ⟨[], []⟩ (baseSession 0)
        (Except.ok [candA, candB]) (some 1)).2 = (baseSession 0).id ∧
    ((schedule_session ⟨[], []⟩ (baseSession 0)
        (Except.ok [candA, candB]) (some 1)).1.suggestions).length = 1 ∧
    (1 : Nat) ≠ 0 :=
  ⟨rfl, rfl, rfl, by decide⟩

/-- Claim C7 (corrected): any exception while computing or persisting
suggestions is swallowed — the session row is always created and the view
always returns the redirect to it — but the caller-visible effect of a
failure is that the session carries only a (possibly empty) prefix of the
computed suggestion batch: empty when the computation itself raised, the
already-inserted prefix when an insert raised mid-loop. -/
theorem claim7_amended :
    ∀ (st : AppState) (ns : MakeUpSession)
      (computed : Except Unit (List Candidate)) (failAt : Option Nat),
      (schedule_session st ns computed failAt).1.sessions =
        st.sessions ++ [ns] ∧
      (schedule_session st ns computed failAt).2 = ns.id ∧
      (∀ e, computed = Except.error e →
        (schedule_session st ns computed failAt).1.suggestions =
          st.suggestions) ∧
      (∀ cs, computed = Except.ok cs → ∃ k, k ≤ cs.length ∧
        (schedule_session st ns computed failAt).1.suggestions =
          st.suggestions ++ (cs.take k).map (toSuggestionRow ns.id)) := by
  intro st ns computed failAt
  refine ⟨rfl, rfl, ?_, ?_⟩
  · intro e he
    subst he
    simp [schedule_session]
  · intro cs hcs
    subst hcs
    cases failAt with
    | none =>
      refine ⟨cs.length, le_refl _, ?_⟩
      simp [schedule_session]
    | some k =>
      refine ⟨min k cs.length, min_le_right _ _, ?_⟩
      have : cs.take (min k cs.length) = cs.take k := by
        rw [← List.take_take, List.take_length]
      simp [schedule_session, this]

/-- Witness for the amended C7: a failing computation leaves the session
persisted with the suggestion table untouched. -/
theorem claim7_witness :
    (schedule_session ⟨[], []⟩ (baseSession 0) (Except.error ())
        none).1.suggestions = ([] : List SchedulingSuggestion) :=
  (claim7_amended ⟨[], []⟩ (baseSession 0) (Except.error ()) none).2.2.1 ()
    rfl

-- Helper lemmas about the stable descending sort.

lemma mem_insertDesc {y c : Candidate} {l : List Candidate} :
    y ∈ insertDesc c l ↔ y = c ∨ y ∈ l := by
  induction l with
  | nil => simp [insertDesc]
  | cons x xs ih =>
    simp only [insertDesc]
    split
    · simp only [List.mem_cons, ih]
      tauto
    · simp [List.mem_cons]

lemma pairwise_insertDesc {c : Candidate} {l : List Candidate}
    (h : l.Pairwise (fun a b => b.score ≤ a.score)) :
    (insertDesc c l).Pairwise (fun a b => b.score ≤ a.score) := by
  induction l with
  | nil => simp [insertDesc]
  | cons x xs ih =>
    rw [List.pairwise_cons] at h
    simp only [insertDesc]
    split
    case isTrue hlt =>
      rw [List.pairwise_cons]
      refine ⟨fun y hy => ?_, ih h.2⟩
      rcases mem_insertDesc.1 hy with rfl | hy
      · omega
      · exact h.1 y hy
    case isFalse hge =>
      rw [List.pairwise_cons]
      refine ⟨fun y hy => ?_, List.pairwise_cons.2 ⟨h.1, h.2⟩⟩
      rcases List.mem_cons.1 hy with rfl | hy
      · omega
      · have := h.1 y hy
        omega

lemma sortDesc_pairwise (l : List Candidate) :
    (sortDesc l).Pairwise (fun a b => b.score ≤ a.score) := by
  induction l with
  | nil => simp [sortDesc]
  | cons x xs ih => exact pairwise_insertDesc ih

lemma filter_insertDesc (c : Candidate) (l : List Candidate) (k : Int) :
    (insertDesc c l).filter (fun x => x.score == k) =
      if c.score == k then c :: l.filter (fun x => x.score == k)
      else l.filter (fun x => x.score == k) := by
  induction l with
  | nil =>
    by_cases hc : c.score = k
    · have hb : (c.score == k) = true := by simp [hc]
      simp [insertDesc, List.filter, hb, hc]
    · have hb : (c.score == k) = false := by simp [hc]
      simp [insertDesc, List.filter, hb, hc]
  | cons x xs ih =>
    simp only [insertDesc]
    split
    case isTrue hlt =>
      rw [List.filter_cons, ih, List.filter_cons]
      by_cases hx : x.score = k <;> by_cases hc : c.score = k <;>
        first
          | (simp [hx, hc]; omega)
          | simp [hx, hc]
    case isFalse hge =>
      simp [List.filter_cons]

lemma sortDesc_filter (l : List Candidate) (k : Int) :
    (sortDesc l).filter (fun x => x.score == k) =
      l.filter (fun x => x.score == k) := by
  induction l with
  | nil => rfl
  | cons x xs ih =>
    simp only [sortDesc]
    rw [filter_insertDesc, ih, List.filter_cons]

/-- Claim C8 (confirmed): `get_scheduling_suggestions` returns at most
`num_suggestions` candidates, sorted by non-increasing score; the sort is
stable, so within each score class the returned candidates appear in
generation order (earliest date first, then preferred-time order) — the
filter of the sorted list at any score equals the filter of the generated
list, and the output is a prefix of the sorted list. -/
theorem claim8_theorem :
    ∀ (db : List MakeUpSession) (session : MakeUpSession) (today : Int)
      (n : Nat),
      (get_scheduling_suggestions db session today n).length ≤ n ∧
      (get_scheduling_suggestions db session today n).Pairwise
        (fun a b => b.score ≤ a.score) ∧
      get_scheduling_suggestions db session today n =
        (sortDesc (generate_candidates db session today)).take n ∧
      (∀ k : Int,
        (sortDesc (generate_candidates db session today)).filter
            (fun c => c.score == k) =
          (generate_candidates db session today).filter
            (fun c => c.score == k)) := by
  intro db session today n
  refine ⟨?_, ?_, rfl, fun k => sortDesc_filter _ k⟩
  · exact List.length_take_le _ _
  · exact (sortDesc_pairwise _).sublist (List.take_sublist _ _)

-- Helper lemmas about the scorer and the candidate generator.

lemma gap_score_bounds (g : Int) :
    5 ≤ (gap_score g).1 ∧ (gap_score g).1 ≤ 30 := by
  unfold gap_score
  split_ifs <;> simp [WEIGHT_GAP_FROM_LAST]

lemma time_score_bounds (t : Time) :
    5 ≤ (time_score t).1 ∧ (time_score t).1 ≤ 20 := by
  unfold time_score
  split_ifs <;> simp [WEIGHT_MORNING_PREF]

lemma conflict_score_bounds (b : List Time) (t : Time) :
    -20 ≤ (conflict_score b t).1 ∧ (conflict_score b t).1 ≤ 40 := by
  unfold conflict_score
  split_ifs <;> simp [WEIGHT_NO_CONFLICT]

lemma load_score_bounds (w : Nat) :
    0 ≤ (load_score w).1 ∧ (load_score w).1 ≤ 10 := by
  unfold load_score
  split_ifs <;> simp [WEIGHT_DAY_BALANCE]

lemma mem_generate_candidates {db : List MakeUpSession}
    {session : MakeUpSession} {today : Int} {c : Candidate} :
    c ∈ generate_candidates db session today ↔
      ∃ off ∈ day_offsets, weekday (today + off) ≠ 6 ∧
        ∃ t ∈ PREFERRED_TIMES,
          c = scoreCandidate (last_session_date db session today)
                (booked_slots (existing_sessions db session today)
                  (today + off))
                (day_load (existing_sessions db session today)
                  (weekday (today + off)))
                (today + off) t := by
  simp only [generate_candidates]
  rw [List.mem_flatMap]
  constructor
  · rintro ⟨off, hoff, hmem⟩
    by_cases h6 : weekday (today + off) = 6
    · simp [h6] at hmem
    · rw [if_neg h6] at hmem
      obtain ⟨t, ht, rfl⟩ := List.mem_map.1 hmem
      exact ⟨off, hoff, h6, t, ht, rfl⟩
  · rintro ⟨off, hoff, h6, t, ht, rfl⟩
    refine ⟨off, hoff, ?_⟩
    rw [if_neg h6]
    exact List.mem_map.2 ⟨t, ht, rfl⟩

lemma day_offsets_bounds : ∀ off ∈ day_offsets, 1 ≤ off ∧ off ≤ 14 := by
  decide

lemma mem_day_offsets_of_bounds :
    ∀ off : Int, 1 ≤ off → off ≤ 14 → off ∈ day_offsets := by
  intro off h1 h2
  interval_cases off <;> decide

lemma day_offsets_filter_length (today : Int) :
    (day_offsets.filter
        (fun off => decide (weekday (today + off) ≠ 6))).length = 12 := by
  have hlist : day_offsets = [1, 2, 3, 4, 5, 6, 7, 8, 9, 10, 11, 12, 13, 14] :=
    by decide
  rw [hlist]
  have h7 : today % 7 = 0 ∨ today % 7 = 1 ∨ today % 7 = 2 ∨ today % 7 = 3 ∨
      today % 7 = 4 ∨ today % 7 = 5 ∨ today % 7 = 6 := by omega
  rcases h7 with h | h | h | h | h | h | h <;>
    · have key : ∀ off : Int, weekday (today + off) = (today % 7 + off) % 7 := by
        intro off
        unfold weekday
        omega
      simp only [key, h]
      decide

lemma generate_candidates_length (db : List MakeUpSession)
    (session : MakeUpSession) (today : Int) :
    (generate_candidates db session today).length =
      12 * PREFERRED_TIMES.length := by
  have aux : ∀ l : List Int,
      (l.flatMap (fun off =>
        if weekday (today + off) = 6 then []
        else PREFERRED_TIMES.map (fun t =>
          scoreCandidate (last_session_date db session today)
            (booked_slots (existing_sessions db session today) (today + off))
            (day_load (existing_sessions db session today)
              (weekday (today + off)))
            (today + off) t))).length =
      PREFERRED_TIMES.length *
        (l.filter (fun off => decide (weekday (today + off) ≠ 6))).length := by
    intro l
    induction l with
    | nil => simp
    | cons x xs ih =>
      rw [List.flatMap_cons, List.filter_cons, List.length_append, ih]
      by_cases h6 : weekday (today + x) = 6
      · have hd : (decide (weekday (today + x) ≠ 6)) = false := by simp [h6]
        rw [if_pos h6, hd]
        simp
      · have hd : (decide (weekday (today + x) ≠ 6)) = true := by simp [h6]
        rw [if_neg h6, hd, if_pos rfl, List.length_map, List.length_cons,
          Nat.mul_succ]
        ring
  simp only [generate_candidates]
  rw [aux day_offsets, day_offsets_filter_length today]
  ring

/-- Claim C2 counterexample: in a concrete scenario (two booked sessions on
day +2 — one at 14:00 — and a COMPLETED same-course session dated +14), the
generated candidate for day +2 at 14:00 carries the stored score −5, which
is outside the claimed post-cap range [5, 100]. -/
theorem claim2_counterexample :
    ((generate_candidates (conflictScenarioDb 0) (baseSession 0) 0).find?
        (fun c => decide (c.date = 2 ∧ c.time = ⟨14, 0⟩))).map
      (fun c => c.score) = some (-5) ∧ ¬ (5 : Int) ≤ -5 :=
  ⟨rfl, by decide⟩

/-- Claim C2 (corrected): with the default weights, every raw term sum lies
in [−60, 100] (indeed in [−10, 100]), and every stored candidate score —
the raw sum after the one-sided `min(score, 100)` cap — also lies in
[−60, 100]; there is no lower clamp, so negative raw scores are preserved
below the cap (the counterexample shows −5 is attained), and the claimed
post-cap floor of 5 does not hold. -/
theorem claim2_amended :
    (∀ (lastDate : Int) (booked : List Time) (load : Nat) (d : Int)
        (t : Time),
        -60 ≤ rawScore lastDate booked load d t ∧
          rawScore lastDate booked load d t ≤ 100) ∧
    (∀ (db : List MakeUpSession) (session : MakeUpSession) (today : Int)
        (c : Candidate), c ∈ generate_candidates db session today →
          -60 ≤ c.score ∧ c.score ≤ 100) := by
  have hraw : ∀ (L : Int) (b : List Time) (w : Nat) (d : Int) (t : Time),
      -60 ≤ rawScore L b w d t ∧ rawScore L b w d t ≤ 100 := by
    intro L b w d t
    have h1 := gap_score_bounds (d - L)
    have h2 := time_score_bounds t
    have h3 := conflict_score_bounds b t
    have h4 := load_score_bounds w
    unfold rawScore
    omega
  refine ⟨hraw, ?_⟩
  intro db session today c hc
  obtain ⟨off, _, _, t, _, rfl⟩ := mem_generate_candidates.1 hc
  have h := hraw (last_session_date db session today)
    (booked_slots (existing_sessions db session today) (today + off))
    (day_load (existing_sessions db session today) (weekday (today + off)))
    (today + off) t
  simp only [scoreCandidate]
  constructor
  · exact le_min h.1 (by omega)
  · exact min_le_right _ _

/-- Witness for the amended C2 at the first generated candidate of an
empty-database scenario. -/
theorem claim2_witness :
    -60 ≤ (Candidate.mk 1 ⟨8, 0⟩ 75
      "close to last session · morning slot — better learning retention · faculty is free at this time · no other sessions on this day").score ∧
    (Candidate.mk 1 ⟨8, 0⟩ 75
      "close to last session · morning slot — better learning retention · faculty is free at this time · no other sessions on this day").score ≤
      100 :=
  claim2_amended.2 [] (baseSession 0) 0
    (Candidate.mk 1 ⟨8, 0⟩ 75
      "close to last session · morning slot — better learning retention · faculty is free at this time · no other sessions on this day")
    (by decide)

/-- Claim C10 (confirmed): every preferred time has hour ≤ 14, so the
late-afternoon branch of the time-of-day term is dead and the term is at
least 10 for generated candidates; the raw sum then lies in [−5, 100], the
maximum 100 is attained, and the one-sided cap `min(score, 100)` never
changes a generated candidate's score. -/
theorem claim10_theorem :
    (∀ t ∈ PREFERRED_TIMES, t.hour ≤ 14) ∧
    (∀ t ∈ PREFERRED_TIMES, 10 ≤ (time_score t).1) ∧
    (∀ (lastDate : Int) (booked : List Time) (load : Nat) (d : Int)
        (t : Time), t ∈ PREFERRED_TIMES →
          -5 ≤ rawScore lastDate booked load d t ∧
          rawScore lastDate booked load d t ≤ 100 ∧
          (scoreCandidate lastDate booked load d t).score =
            rawScore lastDate booked load d t) ∧
    rawScore 0 [] 0 3 ⟨8, 0⟩ = 100 ∧
    (∀ (db : List MakeUpSession) (session : MakeUpSession) (today : Int)
        (c : Candidate), c ∈ generate_candidates db session today →
          -5 ≤ c.score ∧ c.score ≤ 100) := by
  have ht10 : ∀ t ∈ PREFERRED_TIMES, 10 ≤ (time_score t).1 := by decide
  have key : ∀ (L : Int) (b : List Time) (w : Nat) (d : Int) (t : Time),
      t ∈ PREFERRED_TIMES →
        -5 ≤ rawScore L b w d t ∧ rawScore L b w d t ≤ 100 ∧
        (scoreCandidate L b w d t).score = rawScore L b w d t := by
    intro L b w d t ht
    have h1 := gap_score_bounds (d - L)
    have h2 := time_score_bounds t
    have h3 := conflict_score_bounds b t
    have h4 := load_score_bounds w
    have h5 := ht10 t ht
    have hb : -5 ≤ rawScore L b w d t ∧ rawScore L b w d t ≤ 100 := by
      unfold rawScore
      omega
    refine ⟨hb.1, hb.2, ?_⟩
    simp only [scoreCandidate]
    exact min_eq_left hb.2
  refine ⟨by decide, ht10, key, by decide, ?_⟩
  intro db session today c hc
  obtain ⟨off, _, _, t, ht, rfl⟩ := mem_generate_candidates.1 hc
  have h := key (last_session_date db session today)
    (booked_slots (existing_sessions db session today) (today + off))
    (day_load (existing_sessions db session today) (weekday (today + off)))
    (today + off) t ht
  rw [h.2.2]
  exact ⟨h.1, h.2.1⟩

/-- Witness for C10 at the 14:00 preferred time. -/
theorem claim10_witness :
    -5 ≤ rawScore 0 [] 0 2 ⟨14, 0⟩ ∧ rawScore 0 [] 0 2 ⟨14, 0⟩ ≤ 100 ∧
    (scoreCandidate 0 [] 0 2 ⟨14, 0⟩).score = rawScore 0 [] 0 2 ⟨14, 0⟩ :=
  claim10_theorem.2.2.1 0 [] 0 2 ⟨14, 0⟩ (by decide)

/-- Claim C3 counterexample: fourteen consecutive days always contain
exactly two of the excluded weekday, so the generated candidate set has
12 × 5 = 60 slots, not the claimed 13 × 5 = 65. -/
theorem claim3_counterexample :
    (generate_candidates [] (baseSession 0) 0).length = 60 ∧
    60 ≠ 13 * PREFERRED_TIMES.length :=
  ⟨rfl, by decide⟩

/-- Claim C3 (corrected): the candidate set covers exactly the dates 1–14
days ahead, skips every date with weekday index 6, and — because any
fourteen consecutive days contain exactly two such dates — always has
12 (not 13) eligible dates, i.e. 12 × (number of preferred times)
candidates; excluded-weekday dates contribute zero candidates. -/
theorem claim3_amended :
    ∀ (db : List MakeUpSession) (session : MakeUpSession) (today : Int),
      (generate_candidates db session today).length =
        12 * PREFERRED_TIMES.length ∧
      (∀ c ∈ generate_candidates db session today,
          weekday c.date ≠ 6 ∧ today + 1 ≤ c.date ∧ c.date ≤ today + 14 ∧
          c.time ∈ PREFERRED_TIMES) ∧
      (∀ off : Int, 1 ≤ off → off ≤ 14 → weekday (today + off) ≠ 6 →
        ∀ t ∈ PREFERRED_TIMES,
          ∃ c ∈ generate_candidates db session today,
            c.date = today + off ∧ c.time = t) := by
  intro db session today
  refine ⟨generate_candidates_length db session today, ?_, ?_⟩
  · intro c hc
    obtain ⟨off, hoff, h6, t, ht, rfl⟩ := mem_generate_candidates.1 hc
    have hb := day_offsets_bounds off hoff
    simp only [scoreCandidate]
    exact ⟨h6, by omega, by omega, ht⟩
  · intro off h1 h14 h6 t ht
    refine ⟨scoreCandidate (last_session_date db session today)
      (booked_slots (existing_sessions db session today) (today + off))
      (day_load (existing_sessions db session today)
        (weekday (today + off)))
      (today + off) t, ?_, rfl, rfl⟩
    exact mem_generate_candidates.2
      ⟨off, mem_day_offsets_of_bounds off h1 h14, h6, t, ht, rfl⟩

/-- Witness for the amended C3: the slot three days ahead at 09:00 is
generated. -/
theorem claim3_witness :
    ∃ c ∈ generate_candidates [] (baseSession 0) 0,
      c.date = 0 + 3 ∧ c.time = ⟨9, 0⟩ :=
  (claim3_amended [] (baseSession 0) 0).2.2 3 (by decide) (by decide)
    (by decide) ⟨9, 0⟩ (by decide)

-- Scenario facts for the §8 gap scenario.

lemma gap_existing (today : Int) :
    existing_sessions (gapScenarioDb today) (baseSession today) today = [] := by
  simp [existing_sessions, gapScenarioDb, baseSession, List.filter]

lemma gap_last_date (today : Int) :
    last_session_date (gapScenarioDb today) (baseSession today) today =
      today - 3 := by
  simp [last_session_date, gapScenarioDb, baseSession, List.filter]

/-- Claim C1 counterexample: in the spec's own scenario (last COMPLETED
session 3 days ago, candidate 2 days ahead at 08:00, no conflicts, no other
sessions that weekday) the gap is 5 days, so the gap term is the half
weight 15, and the candidate's score is 85, not the claimed 100. -/
theorem claim1_counterexample :
    ((generate_candidates (gapScenarioDb 0) (baseSession 0) 0).find?
        (fun c => decide (c.date = 2 ∧ c.time = ⟨8, 0⟩))).map
      (fun c => c.score) = some 85 ∧ (85 : Int) ≠ 100 :=
  ⟨rfl, by decide⟩

/-- Claim C1 (corrected): for a session created today whose course's most
recent COMPLETED session was 3 days ago, the candidate 2 days from now at
08:00 (when that date is not the excluded weekday) has gap 5 and scores
15 (half gap) + 20 (morning) + 40 (no-conflict) + 10 (day-balance) = 85. -/
theorem claim1_amended :
    ∀ today : Int, weekday (today + 2) ≠ 6 →
      ∃ c ∈ generate_candidates (gapScenarioDb today) (baseSession today)
          today,
        c.date = today + 2 ∧ c.time = ⟨8, 0⟩ ∧ c.score = 85 := by
  intro today h6
  refine ⟨scoreCandidate (last_session_date (gapScenarioDb today)
      (baseSession today) today)
    (booked_slots (existing_sessions (gapScenarioDb today)
      (baseSession today) today) (today + 2))
    (day_load (existing_sessions (gapScenarioDb today) (baseSession today)
      today) (weekday (today + 2)))
    (today + 2) ⟨8, 0⟩, ?_, rfl, rfl, ?_⟩
  · exact mem_generate_candidates.2 ⟨2, by decide, h6, ⟨8, 0⟩, by decide, rfl⟩
  · rw [gap_existing, gap_last_date]
    have hb : booked_slots ([] : List MakeUpSession) (today + 2) = [] := rfl
    have hl : day_load ([] : List MakeUpSession) (weekday (today + 2)) = 0 :=
      rfl
    rw [hb, hl]
    have hgap : today + 2 - (today - 3) = (5 : Int) := by ring
    simp only [scoreCandidate, rawScore, hgap]
    norm_num [gap_score, time_score, conflict_score, load_score,
      WEIGHT_GAP_FROM_LAST, WEIGHT_MORNING_PREF, WEIGHT_NO_CONFLICT,
      WEIGHT_DAY_BALANCE]

/-- Witness for the amended C1 with today = 0 (a Monday under the day-number
convention). -/
theorem claim1_witness :
    ∃ c ∈ generate_candidates (gapScenarioDb 0) (baseSession 0) 0,
      c.date = 0 + 2 ∧ c.time = ⟨8, 0⟩ ∧ c.score = 85 :=
  claim1_amended 0 (by decide)

/-- Claim C4 (confirmed): `mark_attendance` validates in short-circuiting
order — length of the trimmed upper-cased code, lookup by code, validity
split into not-active vs expired, enrollment, duplicate row — with the
first failure winning, and on success appends exactly one PRESENT row
carrying the submitted (normalized) code and the origin address while
leaving the session rows and all prior attendance rows untouched. -/
theorem claim4_theorem :
    ∀ (sessions : List MakeUpSession) (atts : List MakeUpAttendance)
      (student : Student) (rawCode : String) (now : Int) (ip : Option String),
      (((pyUpper (pyStrip rawCode)).isEmpty ||
          (pyUpper (pyStrip rawCode)).length != 6) = true →
        mark_attendance sessions atts student rawCode now ip =
          (.malformed, sessions, atts)) ∧
      (((pyUpper (pyStrip rawCode)).isEmpty ||
          (pyUpper (pyStrip rawCode)).length != 6) = false →
        sessions.find?
            (fun s => s.remedial_code == pyUpper (pyStrip rawCode)) = none →
        mark_attendance sessions atts student rawCode now ip =
          (.invalidCode, sessions, atts)) ∧
      (∀ s, ((pyUpper (pyStrip rawCode)).isEmpty ||
          (pyUpper (pyStrip rawCode)).length != 6) = false →
        sessions.find?
            (fun s => s.remedial_code == pyUpper (pyStrip rawCode)) = some s →
        s.code_active = false →
        mark_attendance sessions atts student rawCode now ip =
          (.notActive, sessions, atts)) ∧
      (∀ s, ((pyUpper (pyStrip rawCode)).isEmpty ||
          (pyUpper (pyStrip rawCode)).length != 6) = false →
        sessions.find?
            (fun s => s.remedial_code == pyUpper (pyStrip rawCode)) = some s →
        s.code_active = true → is_code_valid now s = false →
        mark_attendance sessions atts student rawCode now ip =
          (.expired, sessions, atts)) ∧
      (∀ s, ((pyUpper (pyStrip rawCode)).isEmpty ||
          (pyUpper (pyStrip rawCode)).length != 6) = false →
        sessions.find?
            (fun s => s.remedial_code == pyUpper (pyStrip rawCode)) = some s →
        is_code_valid now s = true →
        student.courseIds.contains s.courseId = false →
        mark_attendance sessions atts student rawCode now ip =
          (.notEnrolled, sessions, atts)) ∧
      (∀ s, ((pyUpper (pyStrip rawCode)).isEmpty ||
          (pyUpper (pyStrip rawCode)).length != 6) = false →
        sessions.find?
            (fun s => s.remedial_code == pyUpper (pyStrip rawCode)) = some s →
        is_code_valid now s = true →
        student.courseIds.contains s.courseId = true →
        atts.any (fun a =>
          a.sessionId == s.id && a.studentId == student.id) = true →
        mark_attendance sessions atts student rawCode now ip =
          (.alreadyMarked, sessions, atts)) ∧
      (∀ s, ((pyUpper (pyStrip rawCode)).isEmpty ||
          (pyUpper (pyStrip rawCode)).length != 6) = false →
        sessions.find?
            (fun s => s.remedial_code == pyUpper (pyStrip rawCode)) = some s →
        is_code_valid now s = true →
        student.courseIds.contains s.courseId = true →
        atts.any (fun a =>
          a.sessionId == s.id && a.studentId == student.id) = false →
        mark_attendance sessions atts student rawCode now ip =
          (.success, sessions,
            atts ++ [{ sessionId := s.id, studentId := student.id,
                       status := "PRESENT",
                       code_used := pyUpper (pyStrip rawCode),
                       ip_address := ip }])) := by
  intro sessions atts student rawCode now ip
  refine ⟨?_, ?_, ?_, ?_, ?_, ?_, ?_⟩
  · intro h1
    simp [mark_attendance, h1]
  · intro h1 hf
    simp [mark_attendance, h1, hf]
  · intro s h1 hf hact
    have hv : is_code_valid now s = false := by
      simp [is_code_valid, hact]
    simp [mark_attendance, h1, hf, hv, hact]
  · intro s h1 hf hact hv
    simp [mark_attendance, h1, hf, hv, hact]
  · intro s h1 hf hv henr
    have henr' : s.courseId ∉ student.courseIds := by
      simpa using henr
    simp [mark_attendance, h1, hf, hv, henr']
  · intro s h1 hf hv henr hdup
    have henr' : s.courseId ∈ student.courseIds := by
      simpa using henr
    have hdup' : ∃ x ∈ atts, x.sessionId = s.id ∧ x.studentId = student.id :=
      by simpa using hdup
    simp [mark_attendance, h1, hf, hv, henr', hdup']
  · intro s h1 hf hv henr hdup
    have henr' : s.courseId ∈ student.courseIds := by
      simpa using henr
    have hdup' :
        ¬ ∃ x ∈ atts, x.sessionId = s.id ∧ x.studentId = student.id := by
      simpa using hdup
    simp [mark_attendance, h1, hf, hv, henr', hdup']

/-- Witness for C4: a successful concrete submission appends exactly the
one expected PRESENT row. -/
theorem claim4_witness :
    mark_attendance [activate_code 0 30 (baseSession 0)] [] ⟨7, [1]⟩
        " abc123 " 10 (some "10.0.0.1") =
      (.success, [activate_code 0 30 (baseSession 0)],
        [] ++ [{ sessionId := (activate_code 0 30 (baseSession 0)).id,
                 studentId := (⟨7, [1]⟩ : Student).id,
                 status := "PRESENT",
                 code_used := pyUpper (pyStrip " abc123 "),
                 ip_address := some "10.0.0.1" }]) :=
  (claim4_theorem [activate_code 0 30 (baseSession 0)] [] ⟨7, [1]⟩
      " abc123 " 10 (some "10.0.0.1")).2.2.2.2.2.2
    (activate_code 0 30 (baseSession 0)) (by decide) (by decide) (by decide)
    (by decide) (by decide)

end LpuCms
